import Mathlib

/-!
Shallow embedding of the Investability Scoring & Event-Propagation core of the
capital-marketplace backend (`apps/backend/src/services/investability.ts`,
`apps/backend/src/services/notification.ts`, and the mutation route handlers in
`apps/backend/src/routes/kyc.ts`, `routes/financials.ts`, `routes/files.ts`).

Modelling conventions:
* JavaScript numbers carrying monetary values (`revenue`) are modelled as `ℚ`;
  point values are `ℤ`.
* `Math.round` is modelled by `jsRound q = ⌊q + 1/2⌋` (round half toward +∞),
  which agrees with JavaScript's `Math.round` semantics.
* The Prisma store is modelled as a list of company records (each carrying its
  documents, as loaded by `include: { documents: true }`), plus notification and
  audit-log lists; thrown "not found"/"already ..." errors become an explicit
  error kind (`ServiceError`).
* Route handlers return the response result, the post-state, and the list of
  log lines produced by `InvestabilityService.onCompanyDataChange`; that list is
  nonempty exactly when score recomputation was triggered.
-/

namespace CapitalMarketplace

/-- A document record, as stored by the file service (`db.document`):
identity and file metadata plus the user-chosen category. -/
structure Document where
  id : String
  name : String
  mimeType : String
  size : ℚ
  category : String
  deriving Repr, DecidableEq

/-- A company record (`db.company`), with its documents loaded
(`include: { documents: true }`). -/
structure Company where
  id : String
  userId : String
  name : String
  sector : String
  targetRaise : ℚ
  revenue : ℚ
  kycVerified : Bool
  financialsLinked : Bool
  documents : List Document
  deriving Repr, DecidableEq

/-- JavaScript `Math.round`: round half toward positive infinity. -/
def jsRound (q : ℚ) : ℤ := Rat.floor (q + 1/2)

/-- `InvestabilityService.calculateRevenueScore` (investability.ts:45-54):
25 points for revenue ≥ $1M, otherwise `Math.round(revenue / 1_000_000 * 25)`. -/
def calculateRevenueScore (revenue : ℚ) : ℤ :=
  if 1000000 ≤ revenue then 25
  else jsRound (revenue / 1000000 * 25)

/-- The four named sub-scores of the investability breakdown. -/
structure Breakdown where
  kycVerified : ℤ
  financialsLinked : ℤ
  documentsUploaded : ℤ
  revenueScore : ℤ
  deriving Repr, DecidableEq

/-- The result of `InvestabilityService.calculateScore`. -/
structure InvestabilityScore where
  score : ℤ
  breakdown : Breakdown
  deriving Repr, DecidableEq

/-- The breakdown computed from a loaded company record
(investability.ts:25-30). -/
def calculateBreakdown (c : Company) : Breakdown where
  kycVerified := if c.kycVerified then 30 else 0
  financialsLinked := if c.financialsLinked then 20 else 0
  documentsUploaded := min ((c.documents.length : ℤ) * 5) 25
  revenueScore := calculateRevenueScore c.revenue

/-- The pure part of `InvestabilityService.calculateScore`
(investability.ts:25-37): sum the breakdown and cap at 100. -/
def scoreOfCompany (c : Company) : InvestabilityScore :=
  let breakdown := calculateBreakdown c
  let score := breakdown.kycVerified + breakdown.financialsLinked +
    breakdown.documentsUploaded + breakdown.revenueScore
  { score := min score 100, breakdown := breakdown }

/-- Error kinds thrown/returned by the service and route layer. -/
inductive ServiceError where
  | NotFound
  | AlreadyDone
  | BadRequest
  deriving Repr, DecidableEq

/-- `db.company.findUnique({ where: { id } })` over the company table. -/
def findUnique (companies : List Company) (companyId : String) : Option Company :=
  companies.find? (fun c => c.id == companyId)

/-- `InvestabilityService.calculateScore` (investability.ts:13-38):
load the company (with documents), fail with NotFound if absent, otherwise
compute the breakdown, sum it, and cap the score at 100. -/
def calculateScore (companies : List Company) (companyId : String) :
    Except ServiceError InvestabilityScore :=
  match findUnique companies companyId with
  | none => .error .NotFound
  | some c => .ok (scoreOfCompany c)

/-- The recommendation list built from a loaded company
(investability.ts:95-114), in source push order. -/
def recommendationsFor (c : Company) : List String :=
  let recs : List String := []
  let recs := if !c.kycVerified then
      recs ++ ["Complete KYC verification to earn 30 points"]
    else recs
  let recs := if !c.financialsLinked then
      recs ++ ["Link your bank account to earn 20 points"]
    else recs
  let recs := if c.documents.length < 5 then
      let needed := 5 - c.documents.length
      recs ++ ["Upload " ++ toString needed ++ " more document" ++
        (if needed > 1 then "s" else "") ++ " to maximize document points"]
    else recs
  let recs := if c.revenue < 1000000 then
      recs ++ ["As your revenue grows, your score will automatically improve"]
    else recs
  recs

/-- `InvestabilityService.getRecommendations` (investability.ts:83-115). -/
def getRecommendations (companies : List Company) (companyId : String) :
    Except ServiceError (List String) :=
  match findUnique companies companyId with
  | none => .error .NotFound
  | some c => .ok (recommendationsFor c)

/-- A notification record (`db.notification`).  The JSON `data` payload of
every notification created by the system helpers carries an `event` tag
(`kyc_verified`, `financials_linked`, `document_uploaded`, `score_improved`);
we keep that tag as a field. -/
structure Notification where
  userId : String
  ntype : String
  title : Option String
  message : String
  event : String
  deriving Repr, DecidableEq

/-- An audit-log record (`db.auditLog`). -/
structure AuditEntry where
  userId : String
  action : String
  resource : String
  deriving Repr, DecidableEq

/-- The persisted stores touched by the scoring core: company records (with
their documents), notifications, and the audit log. -/
structure ServerState where
  companies : List Company
  notifications : List Notification
  auditLog : List AuditEntry
  deriving Repr, DecidableEq

/-- `NotificationService.notifyKycVerified` (notification.ts:134-142). -/
def notifyKycVerified (userId : String) : Notification where
  userId := userId
  ntype := "success"
  title := some "KYC Verified"
  message := "Your KYC verification has been completed successfully. You earned 30 investability points!"
  event := "kyc_verified"

/-- `NotificationService.notifyFinancialsLinked` (notification.ts:144-152). -/
def notifyFinancialsLinked (userId : String) : Notification where
  userId := userId
  ntype := "success"
  title := some "Financials Linked"
  message := "Your bank account has been successfully linked. You earned 20 investability points!"
  event := "financials_linked"

/-- `NotificationService.notifyDocumentUploaded` (notification.ts:154-162). -/
def notifyDocumentUploaded (userId documentName : String) : Notification where
  userId := userId
  ntype := "info"
  title := some "Document Uploaded"
  message := "Document \"" ++ documentName ++ "\" has been uploaded successfully to your data room."
  event := "document_uploaded"

/-- `NotificationService.notifyScoreImproved` (notification.ts:164-173):
defined as a callable primitive; no mutation path invokes it. -/
def notifyScoreImproved (userId : String) (oldScore newScore : ℤ) : Notification where
  userId := userId
  ntype := "success"
  title := some "Score Improved"
  message := "Great progress! Your investability score improved by " ++
    toString (newScore - oldScore) ++ " points (" ++ toString oldScore ++
    " → " ++ toString newScore ++ ")."
  event := "score_improved"

/-- `db.company.update({ where: { id }, data })`: rewrite the record with the
matching id in place. -/
def updateCompany (cs : List Company) (companyId : String) (f : Company → Company) :
    List Company :=
  cs.map (fun c => if c.id == companyId then f c else c)

/-- `InvestabilityService.onCompanyDataChange` (investability.ts:68-78):
recompute the score and log it; nothing is written to any store, so the
state is returned unchanged together with the produced log line. -/
def onCompanyDataChange (st : ServerState) (companyId : String) :
    Except ServiceError (ServerState × List String) :=
  match calculateScore st.companies companyId with
  | .error e => .error e
  | .ok s => .ok (st, ["Score updated for company " ++ companyId ++ ": " ++ toString s.score])

/-- Request body of `POST /api/kyc/verify`. -/
structure KycVerificationRequest where
  companyId : String
  inquiryId : Option String
  mockVerify : Bool
  deriving Repr, DecidableEq

/-- The `POST /api/kyc/verify` handler (kyc.ts:28-117).  `personaResult`
stands for the outcome of the mocked Persona check (`Math.random() > 0.1`).
The returned triple is (response result, post-state, log lines emitted by
`onCompanyDataChange`); the log-line list is nonempty exactly when score
recomputation was triggered. -/
def verifyKyc (st : ServerState) (req : KycVerificationRequest) (personaResult : Bool) :
    Except ServiceError Bool × ServerState × List String :=
  match findUnique st.companies req.companyId with
  | none => (.error .NotFound, st, [])
  | some company =>
    if company.kycVerified then
      (.error .AlreadyDone, st, [])
    else
      match (if req.mockVerify then some true
             else match req.inquiryId with
                  | some _ => some personaResult
                  | none => none) with
      | none => (.error .BadRequest, st, [])
      | some false => (.ok false, st, [])
      | some true =>
        let companies1 :=
          updateCompany st.companies req.companyId (fun c => { c with kycVerified := true })
        let st1 : ServerState := { st with companies := companies1 }
        let st2 : ServerState :=
          { st1 with notifications := st1.notifications ++ [notifyKycVerified company.userId] }
        match onCompanyDataChange st2 req.companyId with
        | .error e => (.error e, st2, [])
        | .ok (st3, logs) =>
          let st4 : ServerState :=
            { st3 with auditLog := st3.auditLog ++
                [{ userId := company.userId, action := "kyc_verified",
                   resource := "Company:" ++ req.companyId }] }
          (.ok true, st4, logs)

/-- The `POST /api/financials/link` handler (financials.ts:28-105).  The
mocked Plaid link succeeds iff the token is nonempty. -/
def linkFinancials (st : ServerState) (companyId plaidToken : String) :
    Except ServiceError Bool × ServerState × List String :=
  match findUnique st.companies companyId with
  | none => (.error .NotFound, st, [])
  | some company =>
    if company.financialsLinked then
      (.error .AlreadyDone, st, [])
    else if plaidToken.length > 0 then
      let companies1 :=
        updateCompany st.companies companyId (fun c => { c with financialsLinked := true })
      let st1 : ServerState := { st with companies := companies1 }
      let st2 : ServerState :=
        { st1 with notifications := st1.notifications ++ [notifyFinancialsLinked company.userId] }
      match onCompanyDataChange st2 companyId with
      | .error e => (.error e, st2, [])
      | .ok (st3, logs) =>
        let st4 : ServerState :=
          { st3 with auditLog := st3.auditLog ++
              [{ userId := company.userId, action := "financials_linked",
                 resource := "Company:" ++ companyId }] }
        (.ok true, st4, logs)
    else (.ok false, st, [])

/-- The `POST /api/files/:companyId` upload handler (files.ts:31-115).
File-storage mechanics are the excluded collaborator; its effect on the
stores is appending the new document record to the company. -/
def uploadDocument (st : ServerState) (companyId : String) (doc : Document) :
    Except ServiceError Document × ServerState × List String :=
  match findUnique st.companies companyId with
  | none => (.error .NotFound, st, [])
  | some company =>
    let companies1 :=
      updateCompany st.companies companyId (fun c => { c with documents := c.documents ++ [doc] })
    let st1 : ServerState := { st with companies := companies1 }
    let st2 : ServerState :=
      { st1 with notifications := st1.notifications ++
          [notifyDocumentUploaded company.userId doc.name] }
    match onCompanyDataChange st2 companyId with
    | .error e => (.error e, st2, [])
    | .ok (st3, logs) =>
      let st4 : ServerState :=
        { st3 with auditLog := st3.auditLog ++
            [{ userId := company.userId, action := "document_uploaded",
               resource := "Document:" ++ doc.id }] }
      (.ok doc, st4, logs)

/-- `FileService.getFile` restricted to record lookup: the document with the
given id belonging to the given company. -/
def getFile (st : ServerState) (fileId companyId : String) : Option Document :=
  match findUnique st.companies companyId with
  | none => none
  | some c => c.documents.find? (fun d => d.id == fileId)

/-- The `DELETE /api/files/:companyId/:fileId` handler (files.ts:267-330). -/
def deleteDocument (st : ServerState) (companyId fileId : String) :
    Except ServiceError Unit × ServerState × List String :=
  match getFile st fileId companyId with
  | none => (.error .NotFound, st, [])
  | some _ =>
    match findUnique st.companies companyId with
    | none => (.error .NotFound, st, [])
    | some company =>
      let companies1 :=
        updateCompany st.companies companyId
          (fun c => { c with documents := c.documents.filter (fun d => !(d.id == fileId)) })
      let st1 : ServerState := { st with companies := companies1 }
      match onCompanyDataChange st1 companyId with
      | .error e => (.error e, st1, [])
      | .ok (st2, logs) =>
        let st3 : ServerState :=
          { st2 with auditLog := st2.auditLog ++
              [{ userId := company.userId, action := "document_deleted",
                 resource := "Document:" ++ fileId }] }
        (.ok () , st3, logs)

/-- The `DELETE /api/financials/link/:companyId` handler (financials.ts:165-230). -/
def unlinkFinancials (st : ServerState) (companyId : String) :
    Except ServiceError Unit × ServerState × List String :=
  match findUnique st.companies companyId with
  | none => (.error .NotFound, st, [])
  | some company =>
    if !company.financialsLinked then
      (.error .BadRequest, st, [])
    else
      let companies1 :=
        updateCompany st.companies companyId (fun c => { c with financialsLinked := false })
      let st1 : ServerState := { st with companies := companies1 }
      match onCompanyDataChange st1 companyId with
      | .error e => (.error e, st1, [])
      | .ok (st2, logs) =>
        let st3 : ServerState :=
          { st2 with auditLog := st2.auditLog ++
              [{ userId := company.userId, action := "financials_unlinked",
                 resource := "Company:" ++ companyId }] }
        (.ok () , st3, logs)

/-! ### Sample records used to instantiate the theorems -/

/-- A brand-new company: nothing verified, no documents, no revenue. -/
def cNew : Company where
  id := "c-new"
  userId := "u-new"
  name := "NewCo"
  sector := "tech"
  targetRaise := 100000
  revenue := 0
  kycVerified := false
  financialsLinked := false
  documents := []

/-- A sample document. -/
def docSample : Document where
  id := "d1"
  name := "pitch.pdf"
  mimeType := "application/pdf"
  size := 1024
  category := "pitch-deck"

/-- A fully optimized company: verified, linked, five documents, revenue
over $1M. -/
def cFull : Company where
  id := "c-full"
  userId := "u-full"
  name := "FullCo"
  sector := "fintech"
  targetRaise := 500000
  revenue := 2000000
  kycVerified := true
  financialsLinked := true
  documents := [docSample, { docSample with id := "d2" }, { docSample with id := "d3" },
    { docSample with id := "d4" }, { docSample with id := "d5" }]

/-- A sample server state holding both companies and one notification. -/
def stSample : ServerState where
  companies := [cNew, cFull]
  notifications := [notifyDocumentUploaded "u-full" "pitch.pdf"]
  auditLog := []

/-- Two documents that differ only in their category. -/
def sameExceptCategory (d₁ d₂ : Document) : Prop :=
  d₁.id = d₂.id ∧ d₁.name = d₂.name ∧ d₁.mimeType = d₂.mimeType ∧ d₁.size = d₂.size

/-- The fully optimized company with one document reclassified. -/
def cFullAlt : Company :=
  { cFull with documents := [{ docSample with category := "other" },
      { docSample with id := "d2" }, { docSample with id := "d3" },
      { docSample with id := "d4" }, { docSample with id := "d5" }] }

/-! ### Helper lemmas -/

/-- `jsRound` is the floor of the argument plus one half. -/
theorem jsRound_eq (q : ℚ) : jsRound q = ⌊q + 1/2⌋ := by
  rw [jsRound, Rat.floor_def' , Rat.floor_def]

/-- The two-branch revenue score of the source equals the single-expression
form `round(min(revenue, 1_000_000) / 1_000_000 * 25)` used by the spec. -/
theorem calculateRevenueScore_eq_round_min (r : ℚ) :
    calculateRevenueScore r = jsRound (min r 1000000 / 1000000 * 25) := by
  unfold calculateRevenueScore
  by_cases h : (1000000 : ℚ) ≤ r
  · rw [if_pos h, min_eq_right h, jsRound_eq]
    norm_num
  · rw [if_neg h, min_eq_left (le_of_lt (not_le.mp h))]

/-- The revenue sub-score never exceeds 25. -/
theorem calculateRevenueScore_le (r : ℚ) : calculateRevenueScore r ≤ 25 := by
  unfold calculateRevenueScore
  split
  · exact le_refl _
  · next h =>
    rw [jsRound_eq]
    have hr : r < 1000000 := not_le.mp h
    have h1 : r / 1000000 < 1 := (div_lt_one (by norm_num)).mpr hr
    have h2 : r / 1000000 * 25 < 25 := by nlinarith
    have h3 : ⌊r / 1000000 * 25 + 1/2⌋ < (26 : ℤ) := by
      apply Int.floor_lt.mpr
      push_cast
      linarith
    omega

/-- The revenue sub-score is nonnegative for nonnegative revenue. -/
theorem calculateRevenueScore_nonneg (r : ℚ) (hr : 0 ≤ r) :
    0 ≤ calculateRevenueScore r := by
  unfold calculateRevenueScore
  split
  · norm_num
  · rw [jsRound_eq]
    apply Int.le_floor.mpr
    have h1 : (0:ℚ) ≤ r / 1000000 * 25 :=
      mul_nonneg (div_nonneg hr (by norm_num)) (by norm_num)
    push_cast
    linarith

/-- JavaScript rounding is monotone. -/
theorem jsRound_mono {a b : ℚ} (h : a ≤ b) : jsRound a ≤ jsRound b := by
  rw [jsRound_eq, jsRound_eq]
  exact Int.floor_le_floor (by linarith)

/-- The revenue sub-score is monotone in revenue. -/
theorem calculateRevenueScore_mono {a b : ℚ} (h : a ≤ b) :
    calculateRevenueScore a ≤ calculateRevenueScore b := by
  by_cases hb : (1000000 : ℚ) ≤ b
  · have hb25 : calculateRevenueScore b = 25 := by
      rw [calculateRevenueScore, if_pos hb]
    rw [hb25]
    exact calculateRevenueScore_le a
  · have ha : ¬ (1000000 : ℚ) ≤ a := fun hle => hb (le_trans hle h)
    rw [calculateRevenueScore, if_neg ha, calculateRevenueScore, if_neg hb]
    apply jsRound_mono
    gcongr

/-- Updating a company record by an id-preserving function commutes with
lookup. -/
theorem findUnique_updateCompany (cs : List Company) (companyId : String)
    (f : Company → Company) (hf : ∀ c, (f c).id = c.id) :
    findUnique (updateCompany cs companyId f) companyId =
      (findUnique cs companyId).map f := by
  unfold findUnique updateCompany
  rw [List.find?_map]
  have hpred : ((fun c : Company => c.id == companyId) ∘
      fun c => if c.id == companyId then f c else c) =
      fun c : Company => c.id == companyId := by
    funext c
    by_cases hc : c.id = companyId
    · simp [hc, hf c]
    · simp [hc]
  rw [hpred]
  cases hfind : List.find? (fun c : Company => c.id == companyId) cs with
  | none => rfl
  | some c0 =>
    have h1 := List.find?_some hfind
    have hc0 : c0.id = companyId := by simpa using h1
    simp [hc0]

/-- When the company exists, `onCompanyDataChange` succeeds, returns the
state unchanged, and produces exactly its log line. -/
theorem onCompanyDataChange_of_found {st : ServerState} {companyId : String}
    {c : Company} (h : findUnique st.companies companyId = some c) :
    onCompanyDataChange st companyId =
      .ok (st, ["Score updated for company " ++ companyId ++ ": " ++
        toString (scoreOfCompany c).score]) := by
  unfold onCompanyDataChange calculateScore
  rw [h]

/-- `onCompanyDataChange` never changes the state: on success the returned
state is the input state. -/
theorem onCompanyDataChange_state (st : ServerState) (companyId : String)
    (res : ServerState × List String)
    (h : onCompanyDataChange st companyId = .ok res) : res.1 = st := by
  unfold onCompanyDataChange at h
  cases hc : calculateScore st.companies companyId with
  | error e => rw [hc] at h; exact absurd h (by simp)
  | ok s =>
    rw [hc] at h
    cases h
    rfl

/-- The KYC route leaves the notification store unchanged or appends exactly
the KYC-verified success notification. -/
theorem verifyKyc_notifications (st : ServerState) (req : KycVerificationRequest)
    (p : Bool) :
    (verifyKyc st req p).2.1.notifications = st.notifications ∨
    ∃ u, (verifyKyc st req p).2.1.notifications =
      st.notifications ++ [notifyKycVerified u] := by
  unfold verifyKyc
  split
  · left; rfl
  next company heqfind =>
    split
    · left; rfl
    · split
      · left; rfl
      · left; rfl
      · dsimp only
        split
        · right; exact ⟨_, rfl⟩
        next st3 logs hoch =>
          have h3 : st3 = _ := onCompanyDataChange_state _ _ (st3, logs) hoch
          right
          refine ⟨company.userId, ?_⟩
          show st3.notifications = _
          rw [h3]

/-- The financial-link route leaves the notification store unchanged or
appends exactly the financials-linked success notification. -/
theorem linkFinancials_notifications (st : ServerState) (companyId plaidToken : String) :
    (linkFinancials st companyId plaidToken).2.1.notifications = st.notifications ∨
    ∃ u, (linkFinancials st companyId plaidToken).2.1.notifications =
      st.notifications ++ [notifyFinancialsLinked u] := by
  unfold linkFinancials
  split
  · left; rfl
  next company heqfind =>
    split
    · left; rfl
    · split
      · dsimp only
        split
        · right; exact ⟨_, rfl⟩
        next st3 logs hoch =>
          have h3 : st3 = _ := onCompanyDataChange_state _ _ (st3, logs) hoch
          right
          refine ⟨company.userId, ?_⟩
          show st3.notifications = _
          rw [h3]
      · left; rfl

/-- The upload route leaves the notification store unchanged or appends
exactly the document-uploaded notification. -/
theorem uploadDocument_notifications (st : ServerState) (companyId : String)
    (doc : Document) :
    (uploadDocument st companyId doc).2.1.notifications = st.notifications ∨
    ∃ u, (uploadDocument st companyId doc).2.1.notifications =
      st.notifications ++ [notifyDocumentUploaded u doc.name] := by
  unfold uploadDocument
  split
  · left; rfl
  next company heqfind =>
    dsimp only
    split
    · right; exact ⟨_, rfl⟩
    next st3 logs hoch =>
      have h3 : st3 = _ := onCompanyDataChange_state _ _ (st3, logs) hoch
      right
      refine ⟨company.userId, ?_⟩
      show st3.notifications = _
      rw [h3]

/-- The delete route never touches the notification store. -/
theorem deleteDocument_notifications (st : ServerState) (companyId fileId : String) :
    (deleteDocument st companyId fileId).2.1.notifications = st.notifications := by
  unfold deleteDocument
  split
  · rfl
  · split
    · rfl
    next company heqfind =>
      dsimp only
      split
      · rfl
      next st2 logs hoch =>
        have h2 : st2 = _ := onCompanyDataChange_state _ _ (st2, logs) hoch
        show st2.notifications = _
        rw [h2]

/-- The unlink route never touches the notification store. -/
theorem unlinkFinancials_notifications (st : ServerState) (companyId : String) :
    (unlinkFinancials st companyId).2.1.notifications = st.notifications := by
  unfold unlinkFinancials
  split
  · rfl
  next company heqfind =>
    split
    · rfl
    · dsimp only
      split
      · rfl
      next st2 logs hoch =>
        have h2 : st2 = _ := onCompanyDataChange_state _ _ (st2, logs) hoch
        show st2.notifications = _
        rw [h2]

/-! ### Claim theorems -/

/-- C1: for every company state and document count, `calculateScore` returns
the breakdown (kyc ? 30 : 0, financials ? 20 : 0, min(documentCount*5, 25),
round(min(revenue, 1_000_000)/1_000_000*25)) and a score equal to the sum of
the four components capped at 100. -/
theorem C1_calculateScore_breakdown (cs : List Company) (companyId : String)
    (c : Company) (h : findUnique cs companyId = some c) :
    calculateScore cs companyId = .ok
      { score := min ((if c.kycVerified then (30:ℤ) else 0) +
          (if c.financialsLinked then (20:ℤ) else 0) +
          min ((c.documents.length : ℤ) * 5) 25 +
          jsRound (min c.revenue 1000000 / 1000000 * 25)) 100
        breakdown :=
          { kycVerified := if c.kycVerified then 30 else 0
            financialsLinked := if c.financialsLinked then 20 else 0
            documentsUploaded := min ((c.documents.length : ℤ) * 5) 25
            revenueScore := jsRound (min c.revenue 1000000 / 1000000 * 25) } } := by
  simp only [calculateScore, h, scoreOfCompany, calculateBreakdown,
    calculateRevenueScore_eq_round_min]

/-- C1 witness: the brand-new sample company evaluated through the theorem. -/
theorem C1_calculateScore_breakdown_witness :
    calculateScore [cNew] "c-new" = .ok
      { score := min ((0:ℤ) + 0 + min ((0:ℤ) * 5) 25 +
          jsRound (min (0:ℚ) 1000000 / 1000000 * 25)) 100
        breakdown :=
          { kycVerified := 0
            financialsLinked := 0
            documentsUploaded := min ((0:ℤ) * 5) 25
            revenueScore := jsRound (min (0:ℚ) 1000000 / 1000000 * 25) } } := by
  have h := C1_calculateScore_breakdown [cNew] "c-new" cNew rfl
  simpa [cNew] using h

/-- C2: the revenue sub-score uses round-half-up: revenue 500,000 gives 13,
and any revenue at least 1,000,000 gives exactly 25. -/
theorem C2_revenue_rounding :
    calculateRevenueScore 500000 = 13 ∧
      ∀ r : ℚ, 1000000 ≤ r → calculateRevenueScore r = 25 := by
  constructor
  · rw [calculateRevenueScore, if_neg (by norm_num), jsRound_eq]
    norm_num
  · intro r hr
    rw [calculateRevenueScore, if_pos hr]

/-- C2 witness: both parts at concrete revenues 500,000 and 2,000,000. -/
theorem C2_revenue_rounding_witness :
    calculateRevenueScore 500000 = 13 ∧ (1000000 : ℚ) ≤ 2000000 ∧
      calculateRevenueScore 2000000 = 25 :=
  ⟨C2_revenue_rounding.1, by norm_num, C2_revenue_rounding.2 2000000 (by norm_num)⟩

/-- C5: on a company id with no matching company, both `calculateScore` and
`getRecommendations` fail with the NotFound kind and return no result. -/
theorem C5_not_found (cs : List Company) (companyId : String)
    (h : findUnique cs companyId = none) :
    calculateScore cs companyId = .error .NotFound ∧
      getRecommendations cs companyId = .error .NotFound := by
  unfold calculateScore getRecommendations
  rw [h]
  exact ⟨rfl, rfl⟩

/-- C3: `getRecommendations` returns exactly the applicable messages, in the
fixed order KYC, financials, documents (with `N = 5 - documentCount` and
singular/plural wording), revenue. -/
theorem C3_recommendations_exact (cs : List Company) (companyId : String)
    (c : Company) (h : findUnique cs companyId = some c) :
    getRecommendations cs companyId = .ok (
      (if c.kycVerified = false then
        ["Complete KYC verification to earn 30 points"] else []) ++
      (if c.financialsLinked = false then
        ["Link your bank account to earn 20 points"] else []) ++
      (if c.documents.length < 5 then
        ["Upload " ++ toString (5 - c.documents.length) ++ " more document" ++
          (if 5 - c.documents.length > 1 then "s" else "") ++
          " to maximize document points"] else []) ++
      (if c.revenue < 1000000 then
        ["As your revenue grows, your score will automatically improve"] else [])) := by
  simp only [getRecommendations, h]
  cases hk : c.kycVerified <;> cases hf : c.financialsLinked <;>
    by_cases hd : c.documents.length < 5 <;>
    by_cases hr : c.revenue < 1000000 <;>
    simp [recommendationsFor, hk, hf, hd, hr]

/-- C3 witness: the brand-new sample company through the theorem. -/
theorem C3_recommendations_exact_witness :
    getRecommendations [cNew] "c-new" = .ok (
      (if cNew.kycVerified = false then
        ["Complete KYC verification to earn 30 points"] else []) ++
      (if cNew.financialsLinked = false then
        ["Link your bank account to earn 20 points"] else []) ++
      (if cNew.documents.length < 5 then
        ["Upload " ++ toString (5 - cNew.documents.length) ++ " more document" ++
          (if 5 - cNew.documents.length > 1 then "s" else "") ++
          " to maximize document points"] else []) ++
      (if cNew.revenue < 1000000 then
        ["As your revenue grows, your score will automatically improve"] else [])) :=
  C3_recommendations_exact [cNew] "c-new" cNew rfl

/-- C6: for an existing company with nonnegative revenue, the score is an
integer in [0, 100], and the cap is redundant: the returned score equals the
exact sum of the four breakdown components. -/
theorem C6_score_bounds (cs : List Company) (companyId : String) (c : Company)
    (h : findUnique cs companyId = some c) (hrev : 0 ≤ c.revenue) :
    calculateScore cs companyId = .ok (scoreOfCompany c) ∧
      0 ≤ (scoreOfCompany c).score ∧ (scoreOfCompany c).score ≤ 100 ∧
      (scoreOfCompany c).score =
        (scoreOfCompany c).breakdown.kycVerified +
        (scoreOfCompany c).breakdown.financialsLinked +
        (scoreOfCompany c).breakdown.documentsUploaded +
        (scoreOfCompany c).breakdown.revenueScore := by
  have hcalc : calculateScore cs companyId = .ok (scoreOfCompany c) := by
    simp only [calculateScore, h]
  have hk1 : (0:ℤ) ≤ (if c.kycVerified then (30:ℤ) else 0) := by
    split <;> norm_num
  have hk2 : (if c.kycVerified then (30:ℤ) else 0) ≤ 30 := by
    split <;> norm_num
  have hf1 : (0:ℤ) ≤ (if c.financialsLinked then (20:ℤ) else 0) := by
    split <;> norm_num
  have hf2 : (if c.financialsLinked then (20:ℤ) else 0) ≤ 20 := by
    split <;> norm_num
  have hd1 : (0:ℤ) ≤ min ((c.documents.length : ℤ) * 5) 25 :=
    le_min (by positivity) (by norm_num)
  have hd2 : min ((c.documents.length : ℤ) * 5) 25 ≤ 25 := min_le_right _ _
  have hr1 := calculateRevenueScore_nonneg c.revenue hrev
  have hr2 := calculateRevenueScore_le c.revenue
  have hsum0 : (0:ℤ) ≤ (if c.kycVerified then (30:ℤ) else 0) +
      (if c.financialsLinked then (20:ℤ) else 0) +
      min ((c.documents.length : ℤ) * 5) 25 + calculateRevenueScore c.revenue := by
    linarith
  have hsum100 : (if c.kycVerified then (30:ℤ) else 0) +
      (if c.financialsLinked then (20:ℤ) else 0) +
      min ((c.documents.length : ℤ) * 5) 25 + calculateRevenueScore c.revenue ≤ 100 := by
    linarith
  refine ⟨hcalc, ?_, ?_, ?_⟩ <;>
    simp only [scoreOfCompany, calculateBreakdown]
  · exact le_min hsum0 (by norm_num)
  · exact min_le_right _ _
  · exact min_eq_left hsum100

/-- C6 witness: the brand-new sample company through the theorem. -/
theorem C6_score_bounds_witness :
    calculateScore [cNew] "c-new" = .ok (scoreOfCompany cNew) ∧
      0 ≤ (scoreOfCompany cNew).score ∧ (scoreOfCompany cNew).score ≤ 100 ∧
      (scoreOfCompany cNew).score =
        (scoreOfCompany cNew).breakdown.kycVerified +
        (scoreOfCompany cNew).breakdown.financialsLinked +
        (scoreOfCompany cNew).breakdown.documentsUploaded +
        (scoreOfCompany cNew).breakdown.revenueScore :=
  C6_score_bounds [cNew] "c-new" cNew rfl (by norm_num [cNew])

/-- C7: `getRecommendations` yields exactly 4 entries for a brand-new
company (nothing verified, no documents, zero revenue) and the empty list
for a fully optimized one (verified, linked, at least 5 documents, revenue
at least $1M). -/
theorem C7_recommendation_counts (cs : List Company) (companyId : String)
    (c : Company) (h : findUnique cs companyId = some c) :
    (c.kycVerified = false → c.financialsLinked = false →
      c.documents.length = 0 → c.revenue = 0 →
      getRecommendations cs companyId = .ok (recommendationsFor c) ∧
        (recommendationsFor c).length = 4) ∧
    (c.kycVerified = true → c.financialsLinked = true →
      5 ≤ c.documents.length → 1000000 ≤ c.revenue →
      getRecommendations cs companyId = .ok []) := by
  have hget : getRecommendations cs companyId = .ok (recommendationsFor c) := by
    simp only [getRecommendations, h]
  constructor
  · intro hk hf hd hr
    refine ⟨hget, ?_⟩
    simp [recommendationsFor, hk, hf, hd, hr,
      show (0:ℚ) < 1000000 by norm_num]
  · intro hk hf hd hr
    rw [hget]
    have h1 : ¬ (c.documents.length < 5) := not_lt.mpr hd
    have h2 : ¬ (c.revenue < 1000000) := not_lt.mpr hr
    simp [recommendationsFor, hk, hf, h1, h2]

/-- C7 witness: both sample companies through the theorem. -/
theorem C7_recommendation_counts_witness :
    (getRecommendations [cNew] "c-new" = .ok (recommendationsFor cNew) ∧
      (recommendationsFor cNew).length = 4) ∧
    getRecommendations [cFull] "c-full" = .ok [] := by
  have h1 := C7_recommendation_counts [cNew] "c-new" cNew rfl
  have h2 := C7_recommendation_counts [cFull] "c-full" cFull rfl
  exact ⟨h1.1 rfl rfl rfl rfl,
    h2.2 rfl rfl (by norm_num [cFull, docSample]) (by norm_num [cFull])⟩

/-- C5 witness: the empty store at a concrete id. -/
theorem C5_not_found_witness :
    calculateScore [] "missing" = .error .NotFound ∧
      getRecommendations [] "missing" = .error .NotFound :=
  C5_not_found [] "missing" rfl

/-- C4: verifying KYC on an already-verified company, or linking financials
on an already-linked company, fails with the AlreadyDone kind, leaves the
whole state unchanged (so no notification is created), and produces no
recomputation log (so score recomputation is not triggered). -/
theorem C4_already_done :
    (∀ (st : ServerState) (req : KycVerificationRequest) (p : Bool) (c : Company),
      findUnique st.companies req.companyId = some c → c.kycVerified = true →
      verifyKyc st req p = (.error .AlreadyDone, st, [])) ∧
    (∀ (st : ServerState) (companyId plaidToken : String) (c : Company),
      findUnique st.companies companyId = some c → c.financialsLinked = true →
      linkFinancials st companyId plaidToken = (.error .AlreadyDone, st, [])) := by
  constructor
  · intro st req p c h hk
    simp [verifyKyc, h, hk]
  · intro st companyId plaidToken c h hf
    simp [linkFinancials, h, hf]

/-- C4 witness: the fully optimized sample company through both parts. -/
theorem C4_already_done_witness :
    verifyKyc stSample { companyId := "c-full", inquiryId := none, mockVerify := true }
        true = (.error .AlreadyDone, stSample, []) ∧
      linkFinancials stSample "c-full" "token" = (.error .AlreadyDone, stSample, []) :=
  ⟨C4_already_done.1 stSample
      { companyId := "c-full", inquiryId := none, mockVerify := true } true cFull rfl rfl,
    C4_already_done.2 stSample "c-full" "token" cFull rfl rfl⟩

/-- Componentwise monotonicity of the capped score. -/
theorem scoreOfCompany_mono {c₁ c₂ : Company}
    (h1 : (if c₁.kycVerified then (30:ℤ) else 0) ≤
      (if c₂.kycVerified then (30:ℤ) else 0))
    (h2 : (if c₁.financialsLinked then (20:ℤ) else 0) ≤
      (if c₂.financialsLinked then (20:ℤ) else 0))
    (h3 : min ((c₁.documents.length : ℤ) * 5) 25 ≤
      min ((c₂.documents.length : ℤ) * 5) 25)
    (h4 : calculateRevenueScore c₁.revenue ≤ calculateRevenueScore c₂.revenue) :
    (scoreOfCompany c₁).score ≤ (scoreOfCompany c₂).score := by
  simp only [scoreOfCompany, calculateBreakdown]
  exact min_le_min (by linarith) le_rfl

/-- C9: the score depends on documents only through their count: two
company states that agree on everything except the categories of their
documents produce identical score and breakdown. -/
theorem C9_category_irrelevant (c₁ c₂ : Company)
    (hid : c₁.id = c₂.id) (huser : c₁.userId = c₂.userId)
    (hname : c₁.name = c₂.name) (hsector : c₁.sector = c₂.sector)
    (htarget : c₁.targetRaise = c₂.targetRaise) (hrev : c₁.revenue = c₂.revenue)
    (hkyc : c₁.kycVerified = c₂.kycVerified)
    (hfin : c₁.financialsLinked = c₂.financialsLinked)
    (hdocs : List.Forall₂ sameExceptCategory c₁.documents c₂.documents) :
    scoreOfCompany c₁ = scoreOfCompany c₂ := by
  have hlen : c₁.documents.length = c₂.documents.length := hdocs.length_eq
  simp [scoreOfCompany, calculateBreakdown, hrev, hkyc, hfin, hlen]

/-- C9 witness: the fully optimized company with one document reclassified. -/
theorem C9_category_irrelevant_witness :
    scoreOfCompany cFull = scoreOfCompany cFullAlt := by
  apply C9_category_irrelevant cFull cFullAlt rfl rfl rfl rfl rfl rfl rfl rfl
  exact .cons ⟨rfl, rfl, rfl, rfl⟩ (.cons ⟨rfl, rfl, rfl, rfl⟩
    (.cons ⟨rfl, rfl, rfl, rfl⟩ (.cons ⟨rfl, rfl, rfl, rfl⟩
      (.cons ⟨rfl, rfl, rfl, rfl⟩ .nil))))

/-- C8: `onCompanyDataChange` only recomputes: for every existing company it
succeeds with the state unchanged (companies, documents, notifications and
audit log all intact) and only a log line; and the score-improvement
notification primitive is never invoked: no mutation route ever adds a
notification tagged with its `score_improved` event. -/
theorem C8_recompute_pure_no_score_notification :
    (∀ (u : String) (o n : ℤ), (notifyScoreImproved u o n).event = "score_improved") ∧
    (∀ (st : ServerState) (companyId : String) (c : Company),
      findUnique st.companies companyId = some c →
      onCompanyDataChange st companyId = .ok (st,
        ["Score updated for company " ++ companyId ++ ": " ++
          toString (scoreOfCompany c).score])) ∧
    (∀ (st : ServerState) (req : KycVerificationRequest) (p : Bool) (n : Notification),
      n ∈ (verifyKyc st req p).2.1.notifications →
      n ∈ st.notifications ∨ n.event ≠ "score_improved") ∧
    (∀ (st : ServerState) (companyId plaidToken : String) (n : Notification),
      n ∈ (linkFinancials st companyId plaidToken).2.1.notifications →
      n ∈ st.notifications ∨ n.event ≠ "score_improved") ∧
    (∀ (st : ServerState) (companyId : String) (d : Document) (n : Notification),
      n ∈ (uploadDocument st companyId d).2.1.notifications →
      n ∈ st.notifications ∨ n.event ≠ "score_improved") ∧
    (∀ (st : ServerState) (companyId fileId : String) (n : Notification),
      n ∈ (deleteDocument st companyId fileId).2.1.notifications →
      n ∈ st.notifications) ∧
    (∀ (st : ServerState) (companyId : String) (n : Notification),
      n ∈ (unlinkFinancials st companyId).2.1.notifications →
      n ∈ st.notifications) := by
  refine ⟨fun u o n => rfl, ?_, ?_, ?_, ?_, ?_, ?_⟩
  · intro st companyId c h
    exact onCompanyDataChange_of_found h
  · intro st req p n hn
    rcases verifyKyc_notifications st req p with h | ⟨u, h⟩
    · rw [h] at hn; exact Or.inl hn
    · rw [h] at hn
      rcases List.mem_append.mp hn with h1 | h2
      · exact Or.inl h1
      · right
        have hn2 : n = notifyKycVerified u := by simpa using h2
        rw [hn2]
        simp [notifyKycVerified]
  · intro st companyId plaidToken n hn
    rcases linkFinancials_notifications st companyId plaidToken with h | ⟨u, h⟩
    · rw [h] at hn; exact Or.inl hn
    · rw [h] at hn
      rcases List.mem_append.mp hn with h1 | h2
      · exact Or.inl h1
      · right
        have hn2 : n = notifyFinancialsLinked u := by simpa using h2
        rw [hn2]
        simp [notifyFinancialsLinked]
  · intro st companyId d n hn
    rcases uploadDocument_notifications st companyId d with h | ⟨u, h⟩
    · rw [h] at hn; exact Or.inl hn
    · rw [h] at hn
      rcases List.mem_append.mp hn with h1 | h2
      · exact Or.inl h1
      · right
        have hn2 : n = notifyDocumentUploaded u d.name := by simpa using h2
        rw [hn2]
        simp [notifyDocumentUploaded]
  · intro st companyId fileId n hn
    rw [deleteDocument_notifications] at hn
    exact hn
  · intro st companyId n hn
    rw [unlinkFinancials_notifications] at hn
    exact hn

/-- C8 witness: the coordinator on the sample state, and a mutation route
call whose surviving notification is not score-improvement tagged. -/
theorem C8_recompute_pure_no_score_notification_witness :
    onCompanyDataChange stSample "c-full" = .ok (stSample,
      ["Score updated for company " ++ "c-full" ++ ": " ++
        toString (scoreOfCompany cFull).score]) ∧
    (notifyDocumentUploaded "u-full" "pitch.pdf" ∈ stSample.notifications ∨
      (notifyDocumentUploaded "u-full" "pitch.pdf").event ≠ "score_improved") := by
  constructor
  · exact C8_recompute_pure_no_score_notification.2.1 stSample "c-full" cFull rfl
  · exact C8_recompute_pure_no_score_notification.2.2.1 stSample
      { companyId := "c-full", inquiryId := none, mockVerify := true } true
      (notifyDocumentUploaded "u-full" "pitch.pdf") (by decide)

/-- C10: the score is monotone in each input: turning on KYC verification,
turning on financials linking, adding a document, or increasing revenue
never decreases the score. -/
theorem C10_monotonicity :
    (∀ c : Company, c.kycVerified = false →
      (scoreOfCompany c).score ≤
        (scoreOfCompany { c with kycVerified := true }).score) ∧
    (∀ c : Company, c.financialsLinked = false →
      (scoreOfCompany c).score ≤
        (scoreOfCompany { c with financialsLinked := true }).score) ∧
    (∀ (c : Company) (d : Document),
      (scoreOfCompany c).score ≤
        (scoreOfCompany { c with documents := c.documents ++ [d] }).score) ∧
    (∀ (c : Company) (r : ℚ), c.revenue ≤ r →
      (scoreOfCompany c).score ≤ (scoreOfCompany { c with revenue := r }).score) := by
  refine ⟨?_, ?_, ?_, ?_⟩
  · intro c hk
    apply scoreOfCompany_mono
    · simp [hk]
    · exact le_rfl
    · exact le_rfl
    · exact le_rfl
  · intro c hf
    apply scoreOfCompany_mono
    · exact le_rfl
    · simp [hf]
    · exact le_rfl
    · exact le_rfl
  · intro c d
    apply scoreOfCompany_mono
    · exact le_rfl
    · exact le_rfl
    · show min ((c.documents.length : ℤ) * 5) 25 ≤
        min (((c.documents ++ [d]).length : ℤ) * 5) 25
      apply min_le_min _ le_rfl
      have : (c.documents ++ [d]).length = c.documents.length + 1 := by
        simp
      rw [this]
      push_cast
      linarith
    · exact le_rfl
  · intro c r hr
    apply scoreOfCompany_mono
    · exact le_rfl
    · exact le_rfl
    · exact le_rfl
    · exact calculateRevenueScore_mono hr

/-- C10 witness: the four parts at the brand-new sample company. -/
theorem C10_monotonicity_witness :
    cNew.kycVerified = false ∧ cNew.financialsLinked = false ∧
      cNew.revenue ≤ 700000 ∧
      (scoreOfCompany cNew).score ≤
        (scoreOfCompany { cNew with kycVerified := true }).score ∧
      (scoreOfCompany cNew).score ≤
        (scoreOfCompany { cNew with financialsLinked := true }).score ∧
      (scoreOfCompany cNew).score ≤
        (scoreOfCompany { cNew with documents := cNew.documents ++ [docSample] }).score ∧
      (scoreOfCompany cNew).score ≤
        (scoreOfCompany { cNew with revenue := 700000 }).score :=
  ⟨rfl, rfl, by norm_num [cNew], C10_monotonicity.1 cNew rfl,
    C10_monotonicity.2.1 cNew rfl, C10_monotonicity.2.2.1 cNew docSample,
    C10_monotonicity.2.2.2 cNew 700000 (by norm_num [cNew])⟩

end CapitalMarketplace
